import Mathlib

/-
  Verification development for the reclaim_server repository
  (src/server.js: the `/receive-proofs` pipeline variant and the
  `/transfer-tokens` variant appended at the end of the file).

  The JavaScript source is shallowly embedded: JS strings are Lean `String`s,
  JS string methods (`includes`, `replace` with a string pattern) are modelled
  on character lists with their ECMAScript semantics, JS numbers are modelled
  as exact IEEE-754 binary64 values (rationals of the form m * 2^e together
  with NaN and the infinities), and the external collaborators (the Reclaim
  proof verifier and the Solana RPC surface) are parameters of the pipeline
  functions.  Thrown JS errors are modelled with `Except String`; the engine
  dependent text of built-in error messages is modelled by fixed
  representative strings (no claim inspects those strings).
-/

set_option maxRecDepth 200000

namespace ReclaimServer

/-! ## JS string primitives -/

/-- Does the character list `s` start with the list `pat`?
(Used to model ECMAScript `String.prototype` searches.) -/
def startsWithL : List Char → List Char → Bool
  | _, [] => true
  | [], _ :: _ => false
  | a :: s, b :: p => a == b && startsWithL s p

/-- ECMAScript `s.includes(sub)`: `sub` occurs contiguously in `s`. -/
def hasSubL : List Char → List Char → Bool
  | [], pat => pat.isEmpty
  | a :: t, pat => startsWithL (a :: t) pat || hasSubL t pat

/-- ECMAScript `String.prototype.replace` with a string pattern and empty
replacement: removes the first occurrence of `pat` (anywhere in the string),
leaving the string unchanged when `pat` does not occur. -/
def replaceFirstL : List Char → List Char → List Char
  | [], _ => []
  | a :: t, pat =>
    if startsWithL (a :: t) pat then List.drop pat.length (a :: t)
    else a :: replaceFirstL t pat

/-- JS `s.includes(sub)` on Lean strings. -/
def jsIncludes (s sub : String) : Bool := hasSubL s.data sub.data

/-- JS `s.replace(pat, "")` on Lean strings (first occurrence only). -/
def jsReplaceFirst (s pat : String) : String := ⟨replaceFirstL s.data pat.data⟩

/-! ## IEEE-754 binary64 model

JS numbers are binary64 floats.  A finite double is an exact rational
`m * 2^e` with `m < 2^53`; we model rounding to nearest, ties to even,
with subnormals and overflow to infinity.  Exact rationals are carried as
explicit numerator/denominator pairs (the denominator is positive by
construction; pairs need not be in lowest terms, only their value matters). -/

/-- An exact rational `num / den`, with `den` positive by construction. -/
structure Frac where
  num : Int
  den : Nat
deriving DecidableEq

/-- Negation of a fraction. -/
def Frac.neg (f : Frac) : Frac := ⟨-f.num, f.den⟩

/-- Mathematical floor of a fraction, as an integer. -/
def fracFloor (f : Frac) : Int := Int.fdiv f.num (f.den : Int)

/-- Fuel-driven bit length; `bitlenAux (n+1) n` equals the bit length of `n`. -/
def bitlenAux : Nat → Nat → Nat
  | 0, _ => 0
  | fuel + 1, n => if n = 0 then 0 else bitlenAux fuel (n / 2) + 1

/-- Bit length of a natural number (`bitlen 0 = 0`, `bitlen 1 = 1`, `bitlen 4 = 3`). -/
def bitlen (n : Nat) : Nat := bitlenAux (n + 1) n

/-- Is `a / b ≥ 2 ^ k` (for positive naturals `a`, `b` and integer `k`)? -/
def gePow2 (a b : Nat) (k : Int) : Bool :=
  if 0 ≤ k then b * 2 ^ k.toNat ≤ a else b ≤ a * 2 ^ (-k).toNat

/-- Floor of the base-2 logarithm of `a / b` for positive `a`, `b`. -/
def ilog2 (a b : Nat) : Int :=
  let k : Int := (bitlen a : Int) - (bitlen b : Int)
  if gePow2 a b k then k else k - 1

/-- Round the fraction `n / d` to the nearest integer, ties to even. -/
def roundMantissa (n d : Nat) : Nat :=
  let q := n / d
  let r := n % d
  if 2 * r < d then q
  else if d < 2 * r then q + 1
  else if q % 2 = 0 then q else q + 1

/-- Round the positive rational `a / b` to the nearest binary64 value
(ties to even, subnormals included); `none` means overflow to infinity. -/
def roundPosDouble (a b : Nat) : Option Frac :=
  let ilog : Int := ilog2 a b
  let e : Int := if ilog < -1022 then -1074 else ilog - 52
  let n := if 0 ≤ e then a else a * 2 ^ (-e).toNat
  let d := if 0 ≤ e then b * 2 ^ e.toNat else b
  let m := roundMantissa n d
  -- overflow iff m * 2^e ≥ 2^1024, i.e. (for m ≥ 1) iff bitlen m > 1024 - e
  if (1024 : Int) - e < (bitlen m : Int) then none
  else if 0 ≤ e then some ⟨(m * 2 ^ e.toNat : Nat), 1⟩
  else some ⟨(m : Int), 2 ^ (-e).toNat⟩

/-- Round an exact rational to the nearest binary64 value; `none` is overflow. -/
def jsRoundDouble (f : Frac) : Option Frac :=
  if f.num = 0 then some ⟨0, 1⟩
  else if 0 < f.num then roundPosDouble f.num.toNat f.den
  else (roundPosDouble (-f.num).toNat f.den).map Frac.neg

/-- A JS number: NaN, an infinity (`true` = negative), or a finite double. -/
inductive JsNum where
  | nan : JsNum
  | inf : Bool → JsNum
  | fin : Frac → JsNum
deriving DecidableEq

/-- JS `Math.floor`. -/
def jsFloorNum : JsNum → JsNum
  | .nan => .nan
  | .inf s => .inf s
  | .fin f => .fin ⟨fracFloor f, 1⟩

/-- JS multiplication of a number by the exact double `1e9`
(`1e9` is exactly representable; the product is rounded to binary64). -/
def jsMulBillion : JsNum → JsNum
  | .nan => .nan
  | .inf s => .inf s
  | .fin f =>
    match jsRoundDouble ⟨f.num * 1000000000, f.den⟩ with
    | none => .inf (decide (f.num < 0))
    | some r => .fin r

/-- JS `BigInt(x)`: throws a RangeError unless `x` is an integral number. -/
def jsBigInt : JsNum → Except String Int
  | .nan => .error "Cannot convert NaN to a BigInt"
  | .inf _ => .error "Cannot convert Infinity to a BigInt"
  | .fin f =>
    if Int.emod f.num (f.den : Int) = 0 then .ok (Int.ediv f.num (f.den : Int))
    else .error "Cannot convert a non-integer to a BigInt"

/-! ## JS `parseFloat` -/

/-- Split off the longest leading run of decimal digits. -/
def takeDigs : List Char → List Char × List Char
  | [] => ([], [])
  | c :: t =>
    if c.isDigit then
      let r := takeDigs t
      (c :: r.1, r.2)
    else ([], c :: t)

/-- Value of a list of decimal digits. -/
def digsToNat (l : List Char) : Nat := l.foldl (fun a c => 10 * a + (c.toNat - 48)) 0

/-- Skip leading ECMAScript whitespace. -/
def dropWS : List Char → List Char
  | [] => []
  | c :: t => if c = ' ' || c = '\t' || c = '\n' || c = '\r' then dropWS t else c :: t

/-- Parse `digits [. digits]` as an exact fraction, returning the rest of the
input; `none` when no digit is present (the literal is invalid). -/
def parseDec (l : List Char) : Option (Frac × List Char) :=
  let p1 := takeDigs l
  let p2 :=
    match p1.2 with
    | '.' :: t => takeDigs t
    | r => ([], r)
  if p1.1.isEmpty && p2.1.isEmpty then none
  else some (⟨(digsToNat (p1.1 ++ p2.1) : Nat), 10 ^ p2.1.length⟩, p2.2)

/-- Digits of an exponent part (an absent or empty digit run yields 0,
matching `parseFloat`'s longest-valid-literal backtracking). -/
def expDigs (u : List Char) : Int := ((digsToNat (takeDigs u).1 : Nat) : Int)

/-- Signed integer after the `e`/`E` of an exponent part. -/
def parseExpTail : List Char → Int
  | '+' :: u => expDigs u
  | '-' :: u => - expDigs u
  | u => expDigs u

/-- Exponent denoted by an ECMAScript `ExponentPart`, 0 when absent. -/
def parseExpVal : List Char → Int
  | 'e' :: t => parseExpTail t
  | 'E' :: t => parseExpTail t
  | _ => 0

/-- The character list of the literal `Infinity`. -/
def infinityChars : List Char := ['I', 'n', 'f', 'i', 'n', 'i', 't', 'y']

/-- Scale a fraction by `10 ^ ex`. -/
def scalePow10 (f : Frac) (ex : Int) : Frac :=
  if 0 ≤ ex then ⟨f.num * (10 ^ ex.toNat : Nat), f.den⟩
  else ⟨f.num, f.den * 10 ^ (-ex).toNat⟩

/-- Exact value denoted by the longest leading decimal literal of `s`
(sign, digits, fraction, exponent), before any floating-point rounding;
`none` when `s` has no leading numeric literal. -/
def exactDecVal (s : String) : Option Frac :=
  let l := dropWS s.data
  let sp :=
    match l with
    | '-' :: t => (true, t)
    | '+' :: t => (false, t)
    | _ => (false, l)
  match parseDec sp.2 with
  | none => none
  | some vr =>
    let scaled := scalePow10 vr.1 (parseExpVal vr.2)
    some (if sp.1 then scaled.neg else scaled)

/-- JS `parseFloat(s)`: longest leading decimal literal, rounded to binary64;
NaN when no literal is present, `Infinity` on the literal or on overflow. -/
def parseFloat (s : String) : JsNum :=
  let l := dropWS s.data
  let sp :=
    match l with
    | '-' :: t => (true, t)
    | '+' :: t => (false, t)
    | _ => (false, l)
  if startsWithL sp.2 infinityChars then .inf sp.1
  else
    match exactDecVal s with
    | none => .nan
    | some v =>
      match jsRoundDouble v with
      | none => .inf sp.1
      | some q => .fin q

/-- `BigInt(Math.floor(parseFloat(amount) * 1e9))` — the token-amount
conversion on line 193 of src/server.js (`transferReward`); errors model the
RangeError thrown by `BigInt` on NaN or Infinity. -/
def jsTokenAmount (amount : String) : Except String Int :=
  jsBigInt (jsFloorNum (jsMulBillion (parseFloat amount)))

/-- Modelled from the spec: the conversion the spec's §4.3 step 4 and §8
describe, `floor(amount * 10^9)` computed on the exact decimal value of the
amount string (no floating-point rounding). -/
def specFloorConversion (amount : String) : Option Int :=
  (exactDecVal amount).map (fun f => fracFloor ⟨f.num * 1000000000, f.den⟩)

/-! ## Data model

The proof envelope after the orchestrator's `JSON.parse`.  In the source,
`claimData.parameters` and `claimData.context` are JSON-encoded strings that
are parsed on access; `none` on those fields models a string whose
`JSON.parse` throws.  `none` on an inner field models a JSON object in which
the property is absent (the access yields `undefined`). -/

/-- `extractedParameters` of the parsed context. -/
structure ExtractedParams where
  balance : Option String
  text : Option String
deriving DecidableEq

/-- The parsed `claimData.context` object. -/
structure ContextData where
  extractedParameters : Option ExtractedParams
  contextMessage : Option String
deriving DecidableEq

/-- The parsed `claimData.parameters` object. -/
structure ClaimParameters where
  url : Option String
deriving DecidableEq

/-- `proof.claimData`. -/
structure ClaimData where
  parameters : Option ClaimParameters
  context : Option ContextData
deriving DecidableEq

/-- A proof envelope as decoded by `/receive-proofs`. -/
structure Proof where
  claimData : ClaimData
deriving DecidableEq

/-- The platform enumeration derived from the proof's request URL. -/
inductive Platform where
  | amazon : Platform
  | flipkart : Platform
deriving DecidableEq

/-- Result of `getDataFromAmazon` / `getDataFromFlipkart` (lines 135-168):
`amount` is `none` when the JS value is `undefined` (possible only on the
Flipkart path), `address` is `none` when `contextMessage` is absent. -/
structure Extracted where
  amount : Option String
  address : Option String
  platform : Platform
deriving DecidableEq

/-- Result object of `transferReward` (lines 219-224). -/
structure TransferResult where
  success : Bool
  signature : String
  transactionUrl : String
  amount : String
deriving DecidableEq

/-- A WebSocket message `{type, content}` (`type` is `"agent"` or `"error"`). -/
structure Msg where
  type : String
  content : String
deriving DecidableEq

/-- The external Solana surface used by `transferReward`, as oracles:
`pubkeyOk` models whether `new PublicKey(addr)` succeeds, `getOrCreate`
models `getOrCreateAssociatedTokenAccount` (returning the recipient token
account address), and `send` models building, sending and confirming the
transfer of a token amount to that account (returning the signature).
An `error` value is the message of the exception the call throws. -/
structure Chain where
  pubkeyOk : String → Bool
  getOrCreate : String → Except String String
  send : Int → String → Except String String

/-! ## Functions from src/server.js -/

/-- The HTML-entity rupee marker stripped by the Amazon extraction. -/
def rupeeEntity : String := "&#x20b9;"

/-- Line 163: `contextData.extractedParameters.balance.replace("&#x20b9;", "")`. -/
def amazonStrip (balance : String) : String := jsReplaceFirst balance rupeeEntity

/-- `getDataFromAmazon` (lines 153-168): verify, parse the context, strip the
rupee entity from `balance`, and read `contextMessage` as the address.
`verify` is the external `verifyProof` capability.  Errors model thrown
exceptions (an invalid proof, a context that does not parse, or a TypeError
from accessing a property of `undefined`). -/
def getDataFromAmazon (verify : Proof → Bool) (proof : Proof) : Except String Extracted :=
  if !(verify proof) then .error "Invalid proof"
  else
    match proof.claimData.context with
    | none => .error "Unexpected token in JSON"
    | some ctx =>
      match ctx.extractedParameters with
      | none => .error "Cannot read properties of undefined (reading balance)"
      | some ps =>
        match ps.balance with
        | none => .error "Cannot read properties of undefined (reading replace)"
        | some bal => .ok ⟨some (amazonStrip bal), ctx.contextMessage, .amazon⟩

/-- `getDataFromFlipkart` (lines 135-150): verify, parse the context, read
`extractedParameters.text` as the amount and `contextMessage` as the address.
A missing `text` yields `undefined` (no throw), hence `amount = none`. -/
def getDataFromFlipkart (verify : Proof → Bool) (proof : Proof) : Except String Extracted :=
  if !(verify proof) then .error "Invalid proof"
  else
    match proof.claimData.context with
    | none => .error "Unexpected token in JSON"
    | some ctx =>
      match ctx.extractedParameters with
      | none => .error "Cannot read properties of undefined (reading text)"
      | some ps => .ok ⟨ps.text, ctx.contextMessage, .flipkart⟩

/-- `transferReward` (lines 171-229): validate the recipient address, resolve
or create the recipient token account, convert the amount with
`BigInt(Math.floor(parseFloat(amount) * 1e9))`, submit the transfer, and on
success return the result object echoing the `amount` argument. -/
def transferReward (ch : Chain) (amount recipientAddress : String) : Except String TransferResult :=
  if !(ch.pubkeyOk recipientAddress) then .error "Invalid public key input"
  else
    match ch.getOrCreate recipientAddress with
    | .error e => .error e
    | .ok toAcct =>
      match jsTokenAmount amount with
      | .error e => .error e
      | .ok tokenAmount =>
        match ch.send tokenAmount toAcct with
        | .error e => .error e
        | .ok sig =>
          .ok { success := true
                signature := sig
                transactionUrl := "https://explorer.solana.com/tx/" ++ sig ++ "?cluster=devnet"
                amount := amount }

/-- Lines 270-277: platform classification by URL substring, `amazon` checked
first; `none` means the `400 Unsupported platform` early return. -/
def classifyPlatform (url : String) : Option Platform :=
  if jsIncludes url "amazon" then some .amazon
  else if jsIncludes url "flipkart" then some .flipkart
  else none

/-- Line 282-284: dispatch to the platform-specific extraction. -/
def extractData (verify : Proof → Bool) (pf : Platform) (proof : Proof) : Except String Extracted :=
  match pf with
  | .amazon => getDataFromAmazon verify proof
  | .flipkart => getDataFromFlipkart verify proof

/-- JS falsiness of an optional string (`undefined` or `""`), as used by the
`!amount || !address` and missing-field checks. -/
def jsFalsyStr : Option String → Bool
  | none => true
  | some s => s.isEmpty

/-- HTTP response of `/receive-proofs`: `ok` is the 200 body
`{success, message, transaction}`, `badRequest` a 400 `{error}`,
`serverError` a 500 `{success: false, error}`. -/
inductive Resp where
  | ok : String → TransferResult → Resp
  | badRequest : String → Resp
  | serverError : String → Resp
deriving DecidableEq

/-- Observable outcome of one `/receive-proofs` request: the HTTP response,
the list of `transferReward(amount, address)` invocations, and the
broadcast WebSocket messages. -/
structure RunOut where
  resp : Resp
  transferCalls : List (String × String)
  broadcasts : List Msg
deriving DecidableEq

/-- Representative message of the error thrown when the request body fails
`decodeURIComponent`/`JSON.parse` (the exact text is engine dependent). -/
def decodeFailMsg : String := "Unexpected token in JSON at position 0"

/-- Representative message of the TypeError thrown by
`undefined.includes` when the parsed parameters have no `url`. -/
def urlUndefinedMsg : String := "Cannot read properties of undefined (reading includes)"

/-- The catch block of `/receive-proofs` (lines 305-318): broadcast an error
notification and answer 500 with the error message. -/
def errorOut (e : String) : RunOut :=
  { resp := .serverError e
    transferCalls := []
    broadcasts := [⟨"error", "Error processing reward: " ++ e⟩] }

/-- The success broadcast content (lines 295-298). -/
def successContent (amount address : String) (tr : TransferResult) : String :=
  "Reward of " ++ amount ++ " tokens has been successfully transferred to wallet " ++
    address ++ ". Transaction URL: " ++ tr.transactionUrl

/-- `POST /receive-proofs` (lines 261-319).  `body = none` models a request
body on which `decodeURIComponent`/`JSON.parse` throws.  The pipeline:
decode, classify by URL substring (400 on neither platform), extract
(verification inside), validate amount/address (400 when falsy), transfer,
broadcast, respond; every thrown error is caught, broadcast, and mapped
to a 500 response. -/
def receiveProofs (verify : Proof → Bool) (ch : Chain) (body : Option Proof) : RunOut :=
  match body with
  | none => errorOut decodeFailMsg
  | some proof =>
    match proof.claimData.parameters with
    | none => errorOut decodeFailMsg
    | some ps =>
      match ps.url with
      | none => errorOut urlUndefinedMsg
      | some url =>
        match classifyPlatform url with
        | none =>
          { resp := .badRequest "Unsupported platform", transferCalls := [], broadcasts := [] }
        | some pf =>
          match extractData verify pf proof with
          | .error e => errorOut e
          | .ok ext =>
            if jsFalsyStr ext.amount || jsFalsyStr ext.address then
              { resp := .badRequest "Missing amount or address in proof"
                transferCalls := []
                broadcasts := [] }
            else
              let amount := ext.amount.getD ""
              let address := ext.address.getD ""
              match transferReward ch amount address with
              | .error e =>
                { resp := .serverError e
                  transferCalls := [(amount, address)]
                  broadcasts := [⟨"error", "Error processing reward: " ++ e⟩] }
              | .ok tr =>
                { resp := .ok "Reward processed successfully" tr
                  transferCalls := [(amount, address)]
                  broadcasts := [⟨"agent", successContent amount address tr⟩] }

/-- Request body of `POST /transfer-tokens` (second server variant,
lines 513-540); the `proof` field is logged but never used. -/
structure TransferTokensBody where
  amount : Option String
  address : Option String
  platform : Option String
deriving DecidableEq

/-- HTTP response of `/transfer-tokens`: 200 returns the `TransferResult`
object itself. -/
inductive TResp where
  | ok : TransferResult → TResp
  | badRequest : String → TResp
  | serverError : String → TResp
deriving DecidableEq

/-- `POST /transfer-tokens` (lines 513-540): reject with 400 when `amount`,
`address` or `platform` is falsy, otherwise call `transferReward` directly
with the supplied amount and address (no classification, extraction or
verification).  The second component lists the `transferReward` invocations. -/
def transferTokens (ch : Chain) (body : TransferTokensBody) : TResp × List (String × String) :=
  if jsFalsyStr body.amount || jsFalsyStr body.address || jsFalsyStr body.platform then
    (.badRequest "Missing required fields", [])
  else
    let amount := body.amount.getD ""
    let address := body.address.getD ""
    match transferReward ch amount address with
    | .error e => (.serverError e, [(amount, address)])
    | .ok tr => (.ok tr, [(amount, address)])

/-! ## WebSocket broadcaster -/

/-- One WebSocket client: `readyState = 1` is OPEN; `ident` distinguishes
connections. -/
structure WsClient where
  ident : Nat
  readyState : Nat
deriving DecidableEq

/-- The WebSocket server state: the set of currently-held client handles. -/
structure WsState where
  clients : List WsClient
deriving DecidableEq

/-- The sends performed by `wss.clients.forEach` (lines 328-333): each client
with `readyState === 1` receives the message, in order; others are skipped. -/
def sendList (clients : List WsClient) (m : Msg) : List (WsClient × Msg) :=
  match clients with
  | [] => []
  | c :: t => (if c.readyState = 1 then [(c, m)] else []) ++ sendList t m

/-- `broadcastMessage` (lines 326-334): with the `if (wss && wss.clients)`
guard; returns the (unchanged) server state and the performed sends. -/
def broadcastMessage (wss : Option WsState) (m : Msg) : Option WsState × List (WsClient × Msg) :=
  match wss with
  | none => (none, [])
  | some st => (some st, sendList st.clients m)

/-! ## Concrete fixtures used by witnesses and counterexamples -/

/-- A verifier oracle that accepts every proof. -/
def verifyTrue : Proof → Bool := fun _ => true

/-- A verifier oracle that rejects every proof. -/
def verifyFalse : Proof → Bool := fun _ => false

/-- A chain oracle on which every call succeeds. -/
def chainOk : Chain :=
  { pubkeyOk := fun _ => true
    getOrCreate := fun _ => .ok "TOKACC"
    send := fun _ _ => .ok "SIG" }

/-- An Amazon proof whose balance carries the Unicode rupee sign `₹`
(as the source's own test data on line 112 does), with context
address `ADDR1`. -/
def amazonProofUnicode : Proof :=
  { claimData :=
    { parameters := some { url := some "https://www.amazon.in/amazonpay/home" }
      context := some
        { extractedParameters := some { balance := some "₹250", text := none }
          contextMessage := some "ADDR1" } } }

/-- An Amazon proof whose balance carries the HTML-entity rupee marker
`&#x20b9;` (the form line 163 strips), with context address `ADDR1`. -/
def amazonProofEntity : Proof :=
  { claimData :=
    { parameters := some { url := some "https://www.amazon.in/amazonpay/home" }
      context := some
        { extractedParameters := some { balance := some "&#x20b9;250", text := none }
          contextMessage := some "ADDR1" } } }

/-- A Flipkart proof in which `extractedParameters.text` is absent. -/
def flipkartProofNoText : Proof :=
  { claimData :=
    { parameters := some { url := some "https://www.flipkart.com/account" }
      context := some
        { extractedParameters := some { balance := none, text := none }
          contextMessage := some "ADDRX" } } }

/-- A proof whose request URL matches neither platform substring. -/
def unknownPlatformProof : Proof :=
  { claimData :=
    { parameters := some { url := some "https://www.example.com/store" }
      context := some
        { extractedParameters := some { balance := some "10", text := some "10" }
          contextMessage := some "ADDRZ" } } }

/-- Is the response the 400 `badRequest` kind? -/
def respIsBadRequest : Resp → Bool
  | .badRequest _ => true
  | _ => false

/-- Is the response the 500 `serverError` kind? -/
def respIsServerError : Resp → Bool
  | .serverError _ => true
  | _ => false

/-! ## Supporting instances and lemmas -/

instance : DecidableEq (Except String Int) := fun a b =>
  match a, b with
  | .ok x, .ok y =>
    if h : x = y then .isTrue (by rw [h]) else .isFalse (fun c => h (Except.ok.inj c))
  | .error e, .error f =>
    if h : e = f then .isTrue (by rw [h]) else .isFalse (fun c => h (Except.error.inj c))
  | .ok _, .error _ => .isFalse (fun c => Except.noConfusion c)
  | .error _, .ok _ => .isFalse (fun c => Except.noConfusion c)

/-- A string with no occurrence of the pattern is left unchanged by the
JS `replace`. -/
theorem replaceFirstL_not_contained (l pat : List Char) (h : hasSubL l pat = false) :
    replaceFirstL l pat = l := by
  induction l with
  | nil => rfl
  | cons a t ih =>
    rw [hasSubL, Bool.or_eq_false_iff] at h
    rw [replaceFirstL, if_neg (by simp [h.1]), ih h.2]

/-- A list starts with itself followed by anything. -/
theorem startsWithL_append (p t : List Char) : startsWithL (p ++ t) p = true := by
  induction p with
  | nil => cases t <;> rfl
  | cons a p ih => simp [startsWithL, ih]

/-- The JS `replace` deletes a leading occurrence of a nonempty pattern. -/
theorem replaceFirstL_self_append (a : Char) (p t : List Char) :
    replaceFirstL ((a :: p) ++ t) (a :: p) = t := by
  have hs : startsWithL (a :: (p ++ t)) (a :: p) = true := by
    have := startsWithL_append (a :: p) t
    rwa [List.cons_append] at this
  rw [List.cons_append, replaceFirstL, if_pos hs]
  rw [← List.cons_append, List.drop_left]

/-- The sends of the broadcast loop are exactly the open clients, in order. -/
theorem sendList_eq_filter (cs : List WsClient) (m : Msg) :
    sendList cs m = (cs.filter (fun c => c.readyState == 1)).map (fun c => (c, m)) := by
  induction cs with
  | nil => rfl
  | cons c t ih =>
    by_cases h : c.readyState = 1
    · simp [sendList, List.filter_cons, h, ih]
    · simp [sendList, List.filter_cons, h, ih, Nat.beq_eq]

/-! ## Claims -/

/-- C5 (counterexample): the conversion in `transferReward` does not equal
`floor(amount * 10^9)` for every decimal amount string.  On `"4.1"` the
code's `BigInt(Math.floor(parseFloat("4.1") * 1e9))` yields `4099999999`
(the double nearest to 4.1 is slightly below it), while the exact
`floor(4.1 * 10^9)` is `4100000000`. -/
theorem jsTokenAmount_floating_divergence :
    jsTokenAmount "4.1" = .ok 4099999999 ∧
    specFloorConversion "4.1" = some 4100000000 ∧
    (4099999999 : Int) ≠ 4100000000 :=
  ⟨by decide, by decide, by decide⟩

/-- C5 (amended): the conversion is `BigInt(Math.floor(parseFloat(amount) * 1e9))`
evaluated in IEEE-754 binary64 arithmetic; on the spec's three examples it
agrees with exact truncation: `"1" ↦ 1000000000`, `"0.000000001" ↦ 1`,
`"0.0000000004" ↦ 0`. -/
theorem jsTokenAmount_spec_examples :
    jsTokenAmount "1" = .ok 1000000000 ∧
    jsTokenAmount "0.000000001" = .ok 1 ∧
    jsTokenAmount "0.0000000004" = .ok 0 :=
  ⟨by decide, by decide, by decide⟩

/-- C6 (counterexample): Amazon amount extraction does not leave every
balance string that lacks the `&#x20b9;` prefix unchanged: `"1000&#x20b9;"`
does not start with the entity, yet `replace` deletes its embedded
occurrence, yielding `"1000"`. -/
theorem amazonStrip_nonprefix_occurrence :
    startsWithL ("1000&#x20b9;" : String).data rupeeEntity.data = false ∧
    amazonStrip "1000&#x20b9;" = "1000" ∧
    ("1000" : String) ≠ "1000&#x20b9;" :=
  ⟨by decide, by decide, by decide⟩

/-- C6 (amended): Amazon amount extraction removes the first occurrence of
the HTML-entity rupee marker `&#x20b9;` anywhere in the balance string and
no other characters: a string with the entity prefixed is returned with
exactly that prefix removed (in particular `"&#x20b9;1000" ↦ "1000"`), and
a balance string not containing the entity at all is returned unchanged. -/
theorem amazonStrip_first_occurrence (s : String) :
    (jsIncludes s rupeeEntity = false → amazonStrip s = s) ∧
    amazonStrip (rupeeEntity ++ s) = s := by
  constructor
  · intro h
    show String.mk (replaceFirstL s.data rupeeEntity.data) = s
    rw [replaceFirstL_not_contained _ _ h]
  · show String.mk (replaceFirstL (rupeeEntity ++ s).data rupeeEntity.data) = s
    rw [String.data_append]
    show String.mk (replaceFirstL (('&' :: "#x20b9;".data) ++ s.data) ('&' :: "#x20b9;".data)) = s
    rw [replaceFirstL_self_append]

/-- C6 (witness): the amended statement applied at the balance `"1000"`. -/
theorem amazonStrip_first_occurrence_witness :
    amazonStrip "1000" = "1000" ∧ amazonStrip (rupeeEntity ++ "1000") = "1000" :=
  ⟨(amazonStrip_first_occurrence "1000").1 (by decide),
   (amazonStrip_first_occurrence "1000").2⟩

/-- C9: a broadcast sends the message to exactly the observer connections
whose `readyState` is OPEN (`=== 1`), skips all others, and leaves the
observer set unchanged. -/
theorem broadcastMessage_open_only (st : WsState) (m : Msg) :
    broadcastMessage (some st) m =
      (some st, (st.clients.filter (fun c => c.readyState == 1)).map (fun c => (c, m))) := by
  show (some st, sendList st.clients m) = _
  rw [sendList_eq_filter]

/-- C10: a request URL containing both `"amazon"` and `"flipkart"` is
classified as Amazon, because the `amazon` substring test runs first. -/
theorem classifyPlatform_overlap (url : String)
    (h1 : jsIncludes url "amazon" = true) (h2 : jsIncludes url "flipkart" = true) :
    classifyPlatform url = some Platform.amazon := by
  rw [classifyPlatform, if_pos h1]

/-- C10 (witness): the overlap rule at the URL `"amazonflipkart"`. -/
theorem classifyPlatform_overlap_witness :
    classifyPlatform "amazonflipkart" = some Platform.amazon :=
  classifyPlatform_overlap "amazonflipkart" (by decide) (by decide)

/-- C2: whenever the verification capability returns false for a proof, the
pipeline never invokes the Transfer Engine and terminates with a
client-facing rejection (a 400 or 500 response, never a 200 success). -/
theorem verify_false_no_transfer (verify : Proof → Bool) (ch : Chain) (p : Proof)
    (h : verify p = false) :
    (receiveProofs verify ch (some p)).transferCalls = [] ∧
    (∃ e, (receiveProofs verify ch (some p)).resp = .badRequest e ∨
          (receiveProofs verify ch (some p)).resp = .serverError e) := by
  obtain ⟨⟨params, pctx⟩⟩ := p
  cases params with
  | none => exact ⟨rfl, decodeFailMsg, Or.inr rfl⟩
  | some ps =>
    obtain ⟨u⟩ := ps
    cases u with
    | none => exact ⟨rfl, urlUndefinedMsg, Or.inr rfl⟩
    | some url =>
      simp only [receiveProofs]
      cases hcp : classifyPlatform url with
      | none => exact ⟨rfl, "Unsupported platform", Or.inl rfl⟩
      | some pf =>
        cases pf with
        | amazon => simp [extractData, getDataFromAmazon, h, errorOut]
        | flipkart => simp [extractData, getDataFromFlipkart, h, errorOut]

/-- C2 (witness): the rejecting verifier on a well-formed Amazon proof. -/
theorem verify_false_no_transfer_witness :
    (receiveProofs verifyFalse chainOk (some amazonProofEntity)).transferCalls = [] ∧
    (∃ e, (receiveProofs verifyFalse chainOk (some amazonProofEntity)).resp = .badRequest e ∨
          (receiveProofs verifyFalse chainOk (some amazonProofEntity)).resp = .serverError e) :=
  verify_false_no_transfer verifyFalse chainOk amazonProofEntity (by decide)

/-- C3: a URL containing `"amazon"` (and not `"flipkart"`) classifies as
Amazon; a URL containing `"flipkart"` (and not `"amazon"`) classifies as
Flipkart; a proof whose URL contains neither is answered 400
`Unsupported platform` and the Transfer Engine is never invoked. -/
theorem classifyPlatform_url_cases (url : String) :
    (jsIncludes url "amazon" = true ∧ jsIncludes url "flipkart" = false →
      classifyPlatform url = some Platform.amazon) ∧
    (jsIncludes url "flipkart" = true ∧ jsIncludes url "amazon" = false →
      classifyPlatform url = some Platform.flipkart) ∧
    (jsIncludes url "amazon" = false ∧ jsIncludes url "flipkart" = false →
      ∀ (verify : Proof → Bool) (ch : Chain) (p : Proof) (ps : ClaimParameters),
        p.claimData.parameters = some ps → ps.url = some url →
          (receiveProofs verify ch (some p)).resp = .badRequest "Unsupported platform" ∧
          (receiveProofs verify ch (some p)).transferCalls = []) := by
  refine ⟨fun hy => ?_, fun hy => ?_, fun hy verify ch p ps hp hu => ?_⟩
  · rw [classifyPlatform, if_pos hy.1]
  · rw [classifyPlatform, if_neg (by simp [hy.2]), if_pos hy.1]
  · have hcp : classifyPlatform url = none := by
      rw [classifyPlatform, if_neg (by simp [hy.1]), if_neg (by simp [hy.2])]
    simp [receiveProofs, hp, hu, hcp]

/-- C3 (witness): the three cases at concrete URLs and a concrete proof. -/
theorem classifyPlatform_url_cases_witness :
    classifyPlatform "https://www.amazon.in/account" = some Platform.amazon ∧
    classifyPlatform "https://www.flipkart.com/account" = some Platform.flipkart ∧
    ((receiveProofs verifyTrue chainOk (some unknownPlatformProof)).resp =
        .badRequest "Unsupported platform" ∧
      (receiveProofs verifyTrue chainOk (some unknownPlatformProof)).transferCalls = []) :=
  ⟨(classifyPlatform_url_cases "https://www.amazon.in/account").1 ⟨by decide, by decide⟩,
   (classifyPlatform_url_cases "https://www.flipkart.com/account").2.1 ⟨by decide, by decide⟩,
   (classifyPlatform_url_cases "https://www.example.com/store").2.2 ⟨by decide, by decide⟩
     verifyTrue chainOk unknownPlatformProof
     { url := some "https://www.example.com/store" } rfl rfl⟩

/-- C4 (counterexample): a request body that fails decoding is answered with
the 500 `serverError` kind (the decode throw lands in the catch block), not
with a 400 `badRequest` as the claim states. -/
theorem decode_failure_is_500_not_400 :
    respIsServerError (receiveProofs verifyTrue chainOk none).resp = true ∧
    respIsBadRequest (receiveProofs verifyTrue chainOk none).resp = false :=
  ⟨by decide, by decide⟩

/-- C4 (amended): a request body that cannot be decoded into a proof envelope
is answered with an HTTP 500 carrying the decode error (plus an error
broadcast), and the pipeline halts before the verification step: the outcome
is the same for every verifier and chain oracle, with no transfer call. -/
theorem decode_failure_halts_before_verification (verify : Proof → Bool) (ch : Chain) :
    receiveProofs verify ch none =
      { resp := .serverError decodeFailMsg
        transferCalls := []
        broadcasts := [⟨"error", "Error processing reward: " ++ decodeFailMsg⟩] } := rfl

/-- C7: when extraction succeeds but the extracted amount or address is
missing (absent or empty), the handler answers 400
`Missing amount or address in proof` and never invokes the Transfer Engine. -/
theorem missing_amount_or_address_rejected (verify : Proof → Bool) (ch : Chain) (p : Proof)
    (ps : ClaimParameters) (url : String) (pf : Platform) (ext : Extracted)
    (hp : p.claimData.parameters = some ps) (hu : ps.url = some url)
    (hc : classifyPlatform url = some pf)
    (he : extractData verify pf p = .ok ext)
    (hm : (jsFalsyStr ext.amount || jsFalsyStr ext.address) = true) :
    (receiveProofs verify ch (some p)).resp = .badRequest "Missing amount or address in proof" ∧
    (receiveProofs verify ch (some p)).transferCalls = [] := by
  simp [receiveProofs, hp, hu, hc, he, hm]

/-- C7 (witness): a verified Flipkart proof with no `text` field. -/
theorem missing_amount_or_address_rejected_witness :
    (receiveProofs verifyTrue chainOk (some flipkartProofNoText)).resp =
      .badRequest "Missing amount or address in proof" ∧
    (receiveProofs verifyTrue chainOk (some flipkartProofNoText)).transferCalls = [] :=
  missing_amount_or_address_rejected verifyTrue chainOk flipkartProofNoText
    { url := some "https://www.flipkart.com/account" } "https://www.flipkart.com/account"
    Platform.flipkart ⟨none, some "ADDRX", Platform.flipkart⟩ rfl rfl (by decide) rfl
    (by decide)

/-- C8: `/transfer-tokens` answers 400 `Missing required fields` when
`amount`, `address` or `platform` is missing; otherwise it calls the
Transfer Engine directly with the supplied amount and address (no
classification, extraction or verification), and succeeds exactly when the
direct `transferReward` call does. -/
theorem transferTokens_direct (ch : Chain) (body : TransferTokensBody) :
    ((jsFalsyStr body.amount || jsFalsyStr body.address || jsFalsyStr body.platform) = true →
      transferTokens ch body = (.badRequest "Missing required fields", [])) ∧
    ((jsFalsyStr body.amount || jsFalsyStr body.address || jsFalsyStr body.platform) = false →
      (transferTokens ch body).2 = [(body.amount.getD "", body.address.getD "")] ∧
      ∀ tr, (transferTokens ch body).1 = TResp.ok tr ↔
        transferReward ch (body.amount.getD "") (body.address.getD "") = .ok tr) := by
  constructor
  · intro h
    simp [transferTokens, h]
  · intro h
    rw [Bool.or_eq_false_iff, Bool.or_eq_false_iff] at h
    obtain ⟨⟨h1, h2⟩, h3⟩ := h
    cases htr : transferReward ch (body.amount.getD "") (body.address.getD "") with
    | error e => simp [transferTokens, h1, h2, h3, htr]
    | ok tr => simp [transferTokens, h1, h2, h3, htr]

/-- C8 (witness): a missing amount yields the 400, and a complete body calls
the Transfer Engine directly with the supplied amount and address. -/
theorem transferTokens_direct_witness :
    transferTokens chainOk ⟨none, some "ADDRY", some "amazon"⟩ =
      (.badRequest "Missing required fields", []) ∧
    (transferTokens chainOk ⟨some "5", some "ADDRY", some "amazon"⟩).2 = [("5", "ADDRY")] ∧
    ((transferTokens chainOk ⟨some "5", some "ADDRY", some "amazon"⟩).1 =
        TResp.ok ⟨true, "SIG", "https://explorer.solana.com/tx/SIG?cluster=devnet", "5"⟩ ↔
      transferReward chainOk "5" "ADDRY" =
        .ok ⟨true, "SIG", "https://explorer.solana.com/tx/SIG?cluster=devnet", "5"⟩) :=
  ⟨(transferTokens_direct chainOk _).1 (by decide),
   ((transferTokens_direct chainOk _).2 (by decide)).1,
   ((transferTokens_direct chainOk _).2 (by decide)).2 _⟩

/-- C1 (counterexample): on a valid Amazon proof whose balance is the
Unicode-rupee string `"₹250"` (as in the source's own test data) and whose
context message is `"ADDR1"`, the pipeline invokes the Transfer Engine with
the unstripped amount `"₹250"` — not `"250"` — and then answers 500 (the
amount parses as NaN), not 200. -/
theorem amazon_unicode_balance_diverges :
    (receiveProofs verifyTrue chainOk (some amazonProofUnicode)).transferCalls =
      [("₹250", "ADDR1")] ∧
    ("₹250" : String) ≠ "250" ∧
    respIsServerError (receiveProofs verifyTrue chainOk (some amazonProofUnicode)).resp = true :=
  ⟨by decide, by decide, by decide⟩

/-- C1 (amended): for every valid Amazon proof whose balance is the
HTML-entity form `"&#x20b9;250"` and whose context message is `"ADDR1"`,
with verification returning true and the chain calls succeeding, the
pipeline invokes the Transfer Engine with `("250", "ADDR1")` and answers
200 with that amount echoed in the transaction result. -/
theorem amazon_entity_balance_pays_250 (verify : Proof → Bool) (ch : Chain) (p : Proof)
    (ps : ClaimParameters) (url : String) (ctx : ContextData) (eps : ExtractedParams)
    (acct sig : String)
    (hp : p.claimData.parameters = some ps) (hu : ps.url = some url)
    (ha : jsIncludes url "amazon" = true)
    (hc : p.claimData.context = some ctx)
    (he : ctx.extractedParameters = some eps)
    (hb : eps.balance = some "&#x20b9;250")
    (hm : ctx.contextMessage = some "ADDR1")
    (hv : verify p = true)
    (hk : ch.pubkeyOk "ADDR1" = true)
    (hg : ch.getOrCreate "ADDR1" = .ok acct)
    (hs : ch.send 250000000000 acct = .ok sig) :
    (receiveProofs verify ch (some p)).transferCalls = [("250", "ADDR1")] ∧
    (receiveProofs verify ch (some p)).resp =
      .ok "Reward processed successfully"
        ⟨true, sig, "https://explorer.solana.com/tx/" ++ sig ++ "?cluster=devnet", "250"⟩ := by
  have hstrip : amazonStrip "&#x20b9;250" = "250" := by decide
  have hcp : classifyPlatform url = some Platform.amazon := by rw [classifyPlatform, if_pos ha]
  have hx : extractData verify Platform.amazon p =
      .ok ⟨some "250", some "ADDR1", Platform.amazon⟩ := by
    simp [extractData, getDataFromAmazon, hv, hc, he, hb, hm, hstrip]
  have htok : jsTokenAmount "250" = .ok 250000000000 := by decide
  have hf1 : jsFalsyStr (some "250") = false := by decide
  have hf2 : jsFalsyStr (some "ADDR1") = false := by decide
  have htr : transferReward ch "250" "ADDR1" =
      .ok ⟨true, sig, "https://explorer.solana.com/tx/" ++ sig ++ "?cluster=devnet", "250"⟩ := by
    simp [transferReward, hk, hg, htok, hs]
  simp [receiveProofs, hp, hu, hcp, hx, htr, hf1, hf2]

/-- C1 (witness): the amended statement at the concrete entity-balance
proof with the always-accepting verifier and the always-succeeding chain. -/
theorem amazon_entity_balance_pays_250_witness :
    (receiveProofs verifyTrue chainOk (some amazonProofEntity)).transferCalls =
      [("250", "ADDR1")] ∧
    (receiveProofs verifyTrue chainOk (some amazonProofEntity)).resp =
      .ok "Reward processed successfully"
        ⟨true, "SIG", "https://explorer.solana.com/tx/" ++ "SIG" ++ "?cluster=devnet", "250"⟩ :=
  amazon_entity_balance_pays_250 verifyTrue chainOk amazonProofEntity
    { url := some "https://www.amazon.in/amazonpay/home" } "https://www.amazon.in/amazonpay/home"
    { extractedParameters := some { balance := some "&#x20b9;250", text := none }
      contextMessage := some "ADDR1" }
    { balance := some "&#x20b9;250", text := none } "TOKACC" "SIG"
    rfl rfl (by decide) rfl rfl rfl rfl rfl rfl rfl rfl

end ReclaimServer
